import Mathlib

/-!
Verification of the booking & payment transaction engine of the rembo
passenger-transport platform, shallowly embedded from the Python sources
under `backend/services/auth/app`.

Conventions of the embedding:
* Monetary `DECIMAL(10,2)` columns are modelled in cents (`Nat`): the decimal
  amount `a` is represented by `100 * a`.  The source's `int(amount)`
  truncation of a positive decimal is then `cents / 100`.
* Timestamps are seconds (`Nat`); `timedelta(minutes=2)` is `120`,
  `timedelta(hours=24)` is `24 * 3600`.
* Status columns are `String`s holding exactly the literals the source
  stores and compares (the source mixes cases: bookings use `"PENDING"`,
  `"CONFIRMED"` but `"cancelled"`; payments use lowercase throughout), so the
  case-sensitive comparisons of the source are reproduced faithfully.
* A SQLAlchemy session that raises or returns an error before `db.commit()`
  discards its uncommitted changes when `get_db` closes it, so error paths
  that never commit are embedded as leaving the state unchanged.
* `query(...).filter(...).first()` followed by mutation of the returned ORM
  object is embedded as `updateFirst`: replace the first list element
  satisfying the filter predicate.
* External effects (gateway HTTP replies, randomly generated references)
  enter as explicit parameters.
-/

namespace Rembo

/-- Decidable equality of results, so that concrete runs can be settled by
`decide`. -/
instance decEqExcept {ε α : Type} [DecidableEq ε] [DecidableEq α] :
    DecidableEq (Except ε α) := fun a b =>
  match a, b with
  | .ok x, .ok y =>
    if h : x = y then .isTrue (by rw [h])
    else .isFalse (fun hc => h (Except.ok.inj hc))
  | .error x, .error y =>
    if h : x = y then .isTrue (by rw [h])
    else .isFalse (fun hc => h (Except.error.inj hc))
  | .ok _, .error _ => .isFalse (fun hc => Except.noConfusion hc)
  | .error _, .ok _ => .isFalse (fun hc => Except.noConfusion hc)

/-- Replace the first element satisfying `p` by its image under `f`
(the embedding of mutating the object returned by `.first()`). -/
def updateFirst (p : α → Bool) (f : α → α) : List α → List α
  | [] => []
  | x :: xs => if p x then f x :: xs else x :: updateFirst p f xs

/-! ## Data model (app/models/trip.py, booking.py, payment.py) -/

/-- `Trip` (models/trip.py): seat counters and fare.  `available_seats` and
`booked_seats` are `Integer` columns mutated by `+=`/`-=` without guards, so
they are embedded as `Int`.  The model declares the CheckConstraint
`available_seats + booked_seats = total_seats` (name `seat_count_consistency`). -/
structure Trip where
  id : Nat
  fare : Nat
  totalSeats : Nat
  availableSeats : Int
  bookedSeats : Int
  status : String
  deriving Repr, DecidableEq

/-- `Booking` (models/booking.py): the fields touched by the booking and
payment flows.  `booking_status` and `payment_status` are `String(20)`
columns with default `"PENDING"`. -/
structure Booking where
  id : Nat
  tripId : Nat
  seatsBooked : Nat
  seatNumbers : List String
  totalFare : Nat
  bookingStatus : String
  paymentStatus : String
  amountPaid : Nat
  amountDue : Nat
  paymentDeadline : Nat
  deriving Repr, DecidableEq

/-- `PaymentTransaction` (models/payment.py). -/
structure PaymentTransaction where
  id : Nat
  bookingId : Nat
  checkoutRequestId : Option String
  merchantRequestId : Option String
  phoneNumber : String
  amount : Nat
  mpesaReceiptNumber : Option String
  transactionDate : Option Nat
  status : String
  failureReason : Option String
  expiresAt : Nat
  deriving Repr, DecidableEq

/-- The decoded STK callback payload: `CheckoutRequestID`, `ResultCode`,
`ResultDesc` and the `MpesaReceiptNumber` item of `CallbackMetadata`. -/
structure StkCallback where
  checkoutRequestId : Option String
  resultCode : Int
  resultDesc : String
  mpesaReceiptNumber : Option String
  deriving Repr, DecidableEq

/-- `PaymentWebhookLog` (models/payment.py): the idempotency/audit ledger row. -/
structure WebhookLog where
  checkoutRequestId : Option String
  webhookType : String
  rawPayload : StkCallback
  processed : Bool
  processedAt : Option Nat
  deriving Repr, DecidableEq

/-- `RefundTransaction` (models/payment.py): the fields set by
`PaymentService.initiate_refund`. -/
structure RefundTransaction where
  id : Nat
  originalPaymentId : Nat
  bookingId : Nat
  refundAmount : Nat
  requiresApproval : Bool
  approvedBy : Option Nat
  status : String
  deriving Repr, DecidableEq

/-- The relational store as seen by the booking/payment services. -/
structure DBState where
  trips : List Trip
  bookings : List Booking
  payments : List PaymentTransaction
  webhookLogs : List WebhookLog
  refunds : List RefundTransaction
  deriving Repr, DecidableEq

/-! ## Seat ledger (BookingService.get_seat_availability) -/

/-- A booking counts toward the occupied-seat set iff its status is in
`["CONFIRMED", "PENDING"]` (the filter in `get_seat_availability`). -/
def isActiveBooking (b : Booking) : Bool :=
  b.bookingStatus == "CONFIRMED" || b.bookingStatus == "PENDING"

/-- The occupied seats of a trip: union of `seat_numbers` over the bookings
of the trip with status `CONFIRMED` or `PENDING`. -/
def occupiedSeats (bookings : List Booking) (tripId : Nat) : List String :=
  (bookings.filter (fun b => b.tripId == tripId && isActiveBooking b)).flatMap
    (fun b => b.seatNumbers)

/-- `get_seat_availability` names the seats `"1"` .. `str(total_seats)`. -/
def seatRange (totalSeats : Nat) : List String :=
  (List.range totalSeats).map (fun i => toString (i + 1))

/-- `seat_map.get(seat) == "available"`: the seat map built by
`get_seat_availability` assigns `"available"` to exactly the seats in
`1..total_seats` that are in no active booking (occupied seats get
`"booked"`/`"reserved"`, seats outside the range are absent). -/
def seatMapAvailable (bookings : List Booking) (trip : Trip) (seat : String) : Bool :=
  (seatRange trip.totalSeats).contains seat &&
    !((occupiedSeats bookings trip.id).contains seat)

/-! ## Booking manager (BookingService.create_booking, endpoint cancel_booking) -/

/-- The fields of `BookingCreateRequest` the service logic reads (passenger
details are orthogonal; `create_or_get_passenger` is modelled as succeeding). -/
structure BookingCreateRequest where
  tripId : Nat
  seatsBooked : Nat
  seatNumbers : List String
  deriving Repr, DecidableEq

/-- The row `create_booking` inserts: status `PENDING`, `total_fare =
trip.fare * seats_booked`, `amount_due = total_fare`, `amount_paid = 0`,
`payment_deadline` 24 hours ahead. -/
def newBooking (req : BookingCreateRequest) (nextId : Nat) (now : Nat)
    (trip : Trip) : Booking :=
  { id := nextId
    tripId := req.tripId
    seatsBooked := req.seatsBooked
    seatNumbers := req.seatNumbers
    totalFare := trip.fare * req.seatsBooked
    bookingStatus := "PENDING"
    paymentStatus := "PENDING"
    amountPaid := 0
    amountDue := trip.fare * req.seatsBooked
    paymentDeadline := now + 24 * 3600 }

/-- `BookingService.create_booking`: validate the trip and seat availability,
then insert the booking and decrement `available_seats` on the trip.
Note that the source decrements `trip.available_seats` only: it never touches
`trip.booked_seats`.  Error paths return before any mutation. -/
def create_booking (req : BookingCreateRequest) (nextId : Nat) (now : Nat)
    (s : DBState) : Except String DBState :=
  match s.trips.find? (fun t => t.id == req.tripId) with
  | none => .error ("Trip not found")
  | some trip =>
    if trip.availableSeats < (req.seatsBooked : Int) then
      .error ("Not enough seats available")
    else
      match req.seatNumbers.find? (fun seat => !(seatMapAvailable s.bookings trip seat)) with
      | some seat => .error ("Seat " ++ seat ++ " is not available")
      | none =>
        .ok { s with
              bookings := s.bookings ++ [newBooking req nextId now trip]
              trips := updateFirst (fun t => t.id == req.tripId)
                (fun t => { t with availableSeats := t.availableSeats - (req.seatsBooked : Int) })
                s.trips }

/-- Body of the `DELETE /bookings/id` endpoint before its blanket
`except Exception` clause: 404 when the booking is missing, 400 when it is
already `cancelled` or `completed`, otherwise mark it `cancelled` and reverse
both trip seat counters. -/
def cancel_booking_inner (bookingId : Nat) (s : DBState) :
    Except (Nat × String) DBState :=
  match s.bookings.find? (fun b => b.id == bookingId) with
  | none => .error (404, "Booking not found")
  | some booking =>
    if booking.bookingStatus == "cancelled" || booking.bookingStatus == "completed" then
      .error (400, "Booking is already cancelled or completed")
    else
      .ok { s with
            bookings := updateFirst (fun b => b.id == bookingId)
              (fun b => { b with bookingStatus := "cancelled" }) s.bookings
            trips := updateFirst (fun t => t.id == booking.tripId)
              (fun t => { t with
                          availableSeats := t.availableSeats + (booking.seatsBooked : Int)
                          bookedSeats := t.bookedSeats - (booking.seatsBooked : Int) })
              s.trips }

/-- The `cancel_booking` endpoint: its `try` block raises `HTTPException`
for the 404/400 cases, and the trailing `except Exception` clause (there is
no `except HTTPException: raise` in booking.py) catches them and re-raises
HTTP 500 "Internal server error".  Errors occur before any commit, so the
state is unchanged on every error path. -/
def cancel_booking (bookingId : Nat) (s : DBState) :
    Except (Nat × String) DBState :=
  match cancel_booking_inner bookingId s with
  | .ok s₁ => .ok s₁
  | .error _ => .error (500, "Internal server error")

/-! ## Payment orchestrator (PaymentService, MpesaService) -/

/-- `abs(float(amount) - float(amount_due))` in cents. -/
def absDiff (a b : Nat) : Nat := if b ≤ a then a - b else b - a

/-- `PaymentService.validate_payment_request` (with the requesting user
assumed to own the booking): booking must exist, not be `CANCELLED`/
`COMPLETED`, the amount must match `amount_due` within 0.01, no `completed`
payment may exist for it, and no `pending`/`processing` payment whose
`expires_at` is still in the future. -/
def validate_payment_request (bookingId : Nat) (amount : Nat) (now : Nat)
    (s : DBState) : Except String Booking :=
  match s.bookings.find? (fun b => b.id == bookingId) with
  | none => .error ("Booking not found or access denied")
  | some booking =>
    if booking.bookingStatus == "CANCELLED" || booking.bookingStatus == "COMPLETED" then
      .error ("Cannot pay for cancelled or completed booking")
    else if absDiff amount booking.amountDue > 1 then
      .error ("Payment amount does not match booking amount")
    else if (s.payments.find? (fun p =>
        p.bookingId == bookingId && p.status == "completed")).isSome then
      .error ("Booking already paid")
    else if (s.payments.find? (fun p =>
        p.bookingId == bookingId &&
        (p.status == "pending" || p.status == "processing") &&
        decide (now < p.expiresAt))).isSome then
      .error ("Payment already in progress")
    else
      .ok booking

/-- `str.startswith(pre)`, computed on the character lists so that concrete
instances evaluate. -/
def strStartsWith (s pre : String) : Bool := pre.data.isPrefixOf s.data

/-- `str[n:]` on the character list. -/
def strDrop (s : String) (n : Nat) : String := ⟨s.data.drop n⟩

/-- Phone normalisation in `MpesaService.initiate_stk_push`: strip a leading
`+`, replace a leading `0` by `254`, otherwise prepend `254` when missing. -/
def normalize_phone (p : String) : String :=
  let p1 := if strStartsWith p ("+") then strDrop p 1 else p
  if strStartsWith p1 ("0") then "254" ++ strDrop p1 1
  else if strStartsWith p1 ("254") then p1
  else "254" ++ p1

/-- `int(amount)` applied to a positive two-decimal amount held in cents:
Python `int()` truncates toward zero. -/
def int_of_decimal (amountCents : Nat) : Nat := amountCents / 100

/-- The fields of the outgoing STK push request relevant here; `Amount` is
`int(amount)` ("M-Pesa expects integer"), in whole currency units. -/
structure StkPushRequest where
  amount : Nat
  partyA : String
  phoneNumber : String
  accountReference : String
  deriving Repr, DecidableEq

/-- Synchronous gateway reply to the STK push request. -/
inductive StkGatewayReply where
  | accepted (checkoutRequestId merchantRequestId : String)
  | rejected (errorMessage : String)
  deriving Repr, DecidableEq

/-- Outcome of `initiate_stk_push`: the returned `(bool, dict)` pair, the
committed state and the request sent to the gateway. -/
structure StkPushOutcome where
  result : Except String Unit
  state : DBState
  request : StkPushRequest
  deriving Repr

/-- `MpesaService.initiate_stk_push`: create the `PaymentTransaction` in
`pending` with `expires_at = now + 2 minutes`, storing the *untruncated*
decimal `amount`, send the request whose `Amount` field is `int(amount)`,
then commit it as `processing` (gateway accepted) or `failed` (rejected).
Both branches commit, so the new row persists either way. -/
def initiate_stk_push (phoneNumber : String) (amount : Nat) (bookingId : Nat)
    (paymentReference : String) (nextPaymentId : Nat) (now : Nat)
    (gw : StkGatewayReply) (s : DBState) : StkPushOutcome :=
  let phone := normalize_phone phoneNumber
  let req : StkPushRequest :=
    { amount := int_of_decimal amount
      partyA := phone
      phoneNumber := phone
      accountReference := paymentReference }
  let payment : PaymentTransaction :=
    { id := nextPaymentId
      bookingId := bookingId
      checkoutRequestId := none
      merchantRequestId := none
      phoneNumber := phone
      amount := amount
      mpesaReceiptNumber := none
      transactionDate := none
      status := "pending"
      failureReason := none
      expiresAt := now + 120 }
  match gw with
  | .accepted cid mid =>
    { result := .ok ()
      request := req
      state := { s with payments := s.payments ++
        [{ payment with
           checkoutRequestId := some cid
           merchantRequestId := some mid
           status := "processing" }] } }
  | .rejected msg =>
    { result := .error msg
      request := req
      state := { s with payments := s.payments ++
        [{ payment with status := "failed", failureReason := some msg }] } }

/-- The `POST /payments/initiate` endpoint: validate, then STK push; a
validation failure raises 400 before any write, a gateway rejection raises
400 after the failed transaction was committed. -/
def initiate_payment (bookingId : Nat) (phoneNumber : String) (amount : Nat)
    (paymentReference : String) (nextPaymentId : Nat) (now : Nat)
    (gw : StkGatewayReply) (s : DBState) : Except String Unit × DBState :=
  match validate_payment_request bookingId amount now s with
  | .error e => (.error e, s)
  | .ok _ =>
    let o := initiate_stk_push phoneNumber amount bookingId paymentReference
      nextPaymentId now gw s
    (o.result, o.state)

/-- The webhook-log row committed by the processing paths of
`handle_stk_callback`. -/
def mkWebhookLog (cb : StkCallback) (cid : String) (now : Nat) : WebhookLog :=
  { checkoutRequestId := some cid
    webhookType := "stk_push"
    rawPayload := cb
    processed := true
    processedAt := some now }

/-- Result of `MpesaService.handle_stk_callback`: the `(bool, dict)` value
and the committed state. -/
structure CallbackOutcome where
  result : Except String String
  state : DBState
  deriving Repr

/-- `MpesaService.handle_stk_callback`.  The source appends a webhook-log
row first (flushed, persisted only on the paths that commit), looks the
payment up by `checkout_request_id`, and then applies the callback
*unconditionally* — there is no check of the ledger for an earlier delivery
and no check that the payment is still non-terminal.  `ResultCode == 0`
completes the payment and confirms the booking; any other code fails the
payment.  The early error returns never commit, so they leave the state
unchanged. -/
def handle_stk_callback (cb : StkCallback) (now : Nat) (s : DBState) :
    CallbackOutcome :=
  match cb.checkoutRequestId with
  | none => { result := .error ("Invalid callback data"), state := s }
  | some cid =>
    match s.payments.find? (fun p => p.checkoutRequestId == some cid) with
    | none => { result := .error ("Payment not found"), state := s }
    | some payment =>
      if cb.resultCode == 0 then
        let completePayment : PaymentTransaction → PaymentTransaction := fun p =>
          { p with
            status := "completed"
            mpesaReceiptNumber := cb.mpesaReceiptNumber
            transactionDate := some now }
        let confirmBooking : Booking → Booking := fun b =>
          { b with
            paymentStatus := "COMPLETED"
            amountPaid := payment.amount
            bookingStatus := "CONFIRMED" }
        let payments₁ := updateFirst (fun p => p.checkoutRequestId == some cid)
          completePayment s.payments
        let bookings₁ := updateFirst (fun b => b.id == payment.bookingId)
          confirmBooking s.bookings
        { result := .ok ("completed")
          state := { s with
                     payments := payments₁
                     bookings := bookings₁
                     webhookLogs := s.webhookLogs ++ [mkWebhookLog cb cid now] } }
      else
        let failPayment : PaymentTransaction → PaymentTransaction := fun p =>
          { p with
            status := "failed"
            failureReason := some cb.resultDesc }
        let payments₁ := updateFirst (fun p => p.checkoutRequestId == some cid)
          failPayment s.payments
        { result := .ok ("failed")
          state := { s with
                     payments := payments₁
                     webhookLogs := s.webhookLogs ++ [mkWebhookLog cb cid now] } }

/-- `PaymentService.schedule_payment_timeout_check`: the source sleeps for
the timeout and then only logs `"Payment timeout check for id - implement
with task queue"`; it performs no state change whatsoever (it does not even
receive a database session). -/
def schedule_payment_timeout_check (paymentId : Nat) (timeoutSeconds : Nat)
    (s : DBState) : DBState :=
  s

/-- `PaymentService.query_payment_status` (requesting user assumed to own
the payment): only when the payment is still `pending`/`processing` and has
a `checkout_request_id` is the gateway polled (`gwReply` is the `ResultCode`
string of a successful poll, `none` a failed poll); result code `"0"`
completes the payment, `"1032"`/`"1037"` cancel it, anything else is
ignored. -/
def query_payment_status (paymentId : Nat) (gwReply : Option String)
    (now : Nat) (s : DBState) : Except String DBState :=
  match s.payments.find? (fun p => p.id == paymentId) with
  | none => .error ("Payment not found or access denied")
  | some p =>
    if (p.status == "pending" || p.status == "processing") &&
        p.checkoutRequestId.isSome then
      match gwReply with
      | none => .ok s
      | some rc =>
        let upd : PaymentTransaction → PaymentTransaction := fun q =>
          if rc == "0" then
            { q with status := "completed", transactionDate := some now }
          else if rc == "1032" || rc == "1037" then
            { q with status := "cancelled" }
          else q
        .ok { s with payments := updateFirst (fun q => q.id == paymentId) upd s.payments }
    else .ok s

/-! ## Webhook endpoint (endpoints/payments.py mpesa_callback) -/

/-- The response body `MpesaCallbackResponse`. -/
structure MpesaCallbackResponse where
  ResultCode : Int
  ResultDesc : String
  deriving Repr, DecidableEq

/-- An HTTP reply of the callback endpoint. -/
structure HttpReply where
  httpStatus : Nat
  body : MpesaCallbackResponse
  deriving Repr, DecidableEq

/-- The `POST /payments/mpesa/callback` endpoint: it only enqueues the
processing as a background task (run after the response is sent) and returns
`200 {ResultCode: 0, ResultDesc: "Success"}`; its `except` clause returns
the very same body ("Still return success to M-Pesa to avoid retries").
`handlerRaises` selects the `except` branch. -/
def mpesa_callback (cb : StkCallback) (handlerRaises : Bool) : HttpReply :=
  if handlerRaises then
    { httpStatus := 200, body := { ResultCode := 0, ResultDesc := "Success" } }
  else
    { httpStatus := 200, body := { ResultCode := 0, ResultDesc := "Success" } }

/-- `PaymentService.process_mpesa_callback` (the background task): runs
`handle_stk_callback` and catches every exception, logging only — no failure
propagates out of it. -/
def process_mpesa_callback (cb : StkCallback) (now : Nat) (s : DBState) : DBState :=
  (handle_stk_callback cb now s).state

/-! ## Refund workflow (PaymentService.initiate_refund) -/

/-- `Decimal('1000.00')` in cents: the approval threshold for large refunds. -/
def refund_approval_threshold : Nat := 100000

/-- `PaymentService.initiate_refund` (with the fleet-membership join
abstracted into `fleetMatch`): requires the payment to exist, belong to the
manager's fleet, the amount not to exceed the payment's amount (checked
before the status), and the payment to be `completed`; the created
`RefundTransaction` has `requires_approval = amount > 1000.00`, no
`approved_by`, and status `pending`.  Error paths return before the insert. -/
def initiate_refund (paymentId : Nat) (refundAmount : Nat) (fleetMatch : Bool)
    (nextRefundId : Nat) (s : DBState) : Except String DBState :=
  match s.payments.find? (fun p => p.id == paymentId) with
  | none => .error ("Payment not found")
  | some payment =>
    if !fleetMatch then
      .error ("Payment not found in your fleet")
    else if refundAmount > payment.amount then
      .error ("Refund amount cannot exceed payment amount")
    else if payment.status != "completed" then
      .error ("Can only refund completed payments")
    else
      .ok { s with refunds := s.refunds ++
        [{ id := nextRefundId
           originalPaymentId := paymentId
           bookingId := payment.bookingId
           refundAmount := refundAmount
           requiresApproval := decide (refundAmount > refund_approval_threshold)
           approvedBy := none
           status := "pending" }] }

/-! ## Invariants under scrutiny -/

/-- The Trip model's own CheckConstraint `seat_count_consistency`:
`available_seats + booked_seats = total_seats`. -/
def tripSeatConsistent (t : Trip) : Bool :=
  t.availableSeats + t.bookedSeats == (t.totalSeats : Int)

/-- The terminal payment statuses of the spec's state machine. -/
def isTerminalStatus (st : String) : Bool :=
  st == "completed" || st == "failed" || st == "cancelled" ||
    st == "expired" || st == "refunded"

/-- Two bookings request a common seat. -/
def seatsOverlap (b₁ b₂ : Booking) : Bool :=
  b₁.seatNumbers.any (fun x => b₂.seatNumbers.contains x)

/-- The pair `(b, c)` is unobjectionable: not both active on the same trip
with a shared seat. -/
def bookingPairOK (b c : Booking) : Bool :=
  !(isActiveBooking b && isActiveBooking c && b.tripId == c.tripId &&
    seatsOverlap b c)

/-- No two distinct active bookings on the same trip share a seat. -/
def conflictFree : List Booking → Bool
  | [] => true
  | b :: bs => bs.all (bookingPairOK b) && conflictFree bs

/-! ## Concrete instances used by the counterexamples and witnesses -/

/-- A fresh trip as `TripService` creates it: `available_seats = capacity`,
`booked_seats = 0`, so `seat_count_consistency` holds. -/
def tripTen : Trip := ⟨1, 50000, 10, 10, 0, "scheduled"⟩

/-- A fresh one-seat trip. -/
def tripOne : Trip := ⟨1, 50000, 1, 1, 0, "scheduled"⟩

/-- Store holding only the fresh ten-seat trip. -/
def stateTen : DBState := ⟨[tripTen], [], [], [], []⟩

/-- Store holding only the fresh one-seat trip. -/
def stateOne : DBState := ⟨[tripOne], [], [], [], []⟩

/-- A request for seats 1 and 2 on trip 1. -/
def reqTwoSeats : BookingCreateRequest := ⟨1, 2, ["1", "2"]⟩

/-- A request for seat 1 on trip 1. -/
def reqSeatOne : BookingCreateRequest := ⟨1, 1, ["1"]⟩

/-- The booking `create_booking reqTwoSeats` inserts into `stateTen`. -/
def bookingTwoSeats : Booking :=
  ⟨1, 1, 2, ["1", "2"], 100000, "PENDING", "PENDING", 0, 100000, 86400⟩

/-- `stateTen` after `create_booking reqTwoSeats 1 0`: `available_seats`
dropped from 10 to 8 while `booked_seats` is still 0. -/
def stateTenAfter : DBState :=
  ⟨[{ tripTen with availableSeats := 8 }], [bookingTwoSeats], [], [], []⟩

/-- A pending one-seat booking (id 1, seat "1", fare 500.00). -/
def bookingPending : Booking :=
  ⟨1, 1, 1, ["1"], 50000, "PENDING", "PENDING", 0, 50000, 86400⟩

/-- A `processing` payment for booking 1, initiated at 10 s, expiring at
130 s, with checkout request id "CR1". -/
def paymentProcessing : PaymentTransaction :=
  ⟨1, 1, some "CR1", some "MR1", "254700000001", 50000, none, none,
    "processing", none, 130⟩

/-- A `completed` (terminal) payment for booking 1. -/
def paymentCompleted : PaymentTransaction :=
  ⟨1, 1, some "CR1", some "MR1", "254700000001", 50000, some "ABC123",
    some 100, "completed", none, 130⟩

/-- A confirmed, paid booking matching `paymentCompleted`. -/
def bookingConfirmed : Booking :=
  ⟨1, 1, 1, ["1"], 50000, "CONFIRMED", "COMPLETED", 50000, 50000, 86400⟩

/-- Store with a confirmed booking whose payment is `completed`. -/
def stateCompleted : DBState := ⟨[], [bookingConfirmed], [paymentCompleted], [], []⟩

/-- Store with a pending booking and its `processing` payment. -/
def stateProcessing : DBState := ⟨[tripTen], [bookingPending], [paymentProcessing], [], []⟩

/-- A failure callback for checkout request "CR1": the payer cancelled. -/
def cbFailure : StkCallback := ⟨some "CR1", 1032, "Request cancelled by user", none⟩

/-- A success callback for checkout request "CR1" with receipt "ABC123". -/
def cbSuccess : StkCallback :=
  ⟨some "CR1", 0, "The service request is processed successfully.", some "ABC123"⟩

/-- `stateOne` after booking seat "1" (the C4 trace, step 1). -/
def traceS1 : DBState :=
  ⟨[{ tripOne with availableSeats := 0 }], [bookingPending], [], [], []⟩

/-- The C4 trace after initiating payment for booking 1 (step 2). -/
def traceS2 : DBState :=
  ⟨[{ tripOne with availableSeats := 0 }], [bookingPending], [paymentProcessing], [], []⟩

/-- The cancelled copy of `bookingPending`. -/
def bookingCancelled : Booking := { bookingPending with bookingStatus := "cancelled" }

/-- The C4 trace after cancelling booking 1 (step 3): the seat is freed and
`booked_seats` is even driven negative (`create_booking` never incremented it). -/
def traceS3 : DBState :=
  ⟨[{ tripOne with availableSeats := 1, bookedSeats := -1 }], [bookingCancelled],
    [paymentProcessing], [], []⟩

/-- The second pending booking of the C4 trace, taking the freed seat "1". -/
def bookingSecond : Booking :=
  ⟨2, 1, 1, ["1"], 50000, "PENDING", "PENDING", 0, 50000, 86420⟩

/-- The C4 trace after rebooking seat "1" as booking 2 (step 4). -/
def traceS4 : DBState :=
  ⟨[{ tripOne with availableSeats := 0, bookedSeats := -1 }],
    [bookingCancelled, bookingSecond], [paymentProcessing], [], []⟩

/-- The resurrected copy of booking 1: the success callback set it to
`CONFIRMED` although it had been cancelled. -/
def bookingResurrected : Booking :=
  { bookingCancelled with
    bookingStatus := "CONFIRMED", paymentStatus := "COMPLETED", amountPaid := 50000 }

/-- `paymentProcessing` after the success callback. -/
def paymentAfterSuccess : PaymentTransaction :=
  { paymentProcessing with
    status := "completed", mpesaReceiptNumber := some "ABC123", transactionDate := some 30 }

/-- The C4 trace after the late success callback (step 5): bookings 1 and 2
are both active on trip 1 and both hold seat "1". -/
def traceS5 : DBState :=
  ⟨[{ tripOne with availableSeats := 0, bookedSeats := -1 }],
    [bookingResurrected, bookingSecond], [paymentAfterSuccess],
    [mkWebhookLog cbSuccess "CR1" 30], []⟩

/-- A `completed` payment of 1000.00 (id 1) for refund scenarios. -/
def paymentLarge : PaymentTransaction :=
  ⟨1, 1, some "CR1", some "MR1", "254700000001", 100000, some "ABC123",
    some 100, "completed", none, 130⟩

/-- Store holding only `paymentLarge`. -/
def stateRefund : DBState := ⟨[], [], [paymentLarge], [], []⟩

/-- The refund `initiate_refund 1 5000 true 1 stateRefund` creates. -/
def refundSmall : RefundTransaction := ⟨1, 1, 1, 5000, false, none, "pending"⟩

/-- Store with an already-cancelled booking. -/
def stateCancelled : DBState := ⟨[tripTen], [bookingCancelled], [], [], []⟩

/-- Store with a `processing` (non-completed) payment only. -/
def statePaymentProcessing : DBState := ⟨[], [], [paymentProcessing], [], []⟩

/-- The empty store. -/
def stateEmpty : DBState := ⟨[], [], [], [], []⟩

/-! ## General lemmas about the embedding -/

theorem mem_updateFirst {α : Type} {p : α → Bool} {f : α → α} {l : List α} {x : α}
    (h : x ∈ updateFirst p f l) : x ∈ l ∨ ∃ y ∈ l, p y = true ∧ x = f y := by
  induction l with
  | nil => simp [updateFirst] at h
  | cons a t ih =>
    by_cases hp : p a = true
    · rw [updateFirst, if_pos hp] at h
      rcases List.mem_cons.mp h with h' | h'
      · exact Or.inr ⟨a, List.mem_cons_self a t, hp, h'⟩
      · exact Or.inl (List.mem_cons_of_mem a h')
    · rw [updateFirst, if_neg hp] at h
      rcases List.mem_cons.mp h with h' | h'
      · exact Or.inl (h' ▸ List.mem_cons_self a t)
      · rcases ih h' with h'' | ⟨y, hy, hpy, hxy⟩
        · exact Or.inl (List.mem_cons_of_mem a h'')
        · exact Or.inr ⟨y, List.mem_cons_of_mem a hy, hpy, hxy⟩

theorem find?_updateFirst_self {α : Type} {p : α → Bool} {f : α → α} {l : List α} {x : α}
    (h : l.find? p = some x) (hfx : p (f x) = true) :
    (updateFirst p f l).find? p = some (f x) := by
  induction l with
  | nil => simp at h
  | cons a t ih =>
    by_cases hp : p a = true
    · rw [List.find?_cons_of_pos _ hp] at h
      obtain rfl : a = x := Option.some.inj h
      rw [updateFirst, if_pos hp]
      exact List.find?_cons_of_pos _ hfx
    · rw [List.find?_cons_of_neg _ (by simpa using hp)] at h
      rw [updateFirst, if_neg hp]
      rw [List.find?_cons_of_neg _ (by simpa using hp)]
      exact ih h

theorem updateFirst_idem {α : Type} {p : α → Bool} {f : α → α}
    (hp : ∀ x, p (f x) = p x) (hf : ∀ x, f (f x) = f x) :
    ∀ l : List α, updateFirst p f (updateFirst p f l) = updateFirst p f l := by
  intro l
  induction l with
  | nil => rfl
  | cons a t ih =>
    by_cases h : p a = true
    · rw [updateFirst, if_pos h, updateFirst, if_pos (by rw [hp a]; exact h), hf]
    · rw [updateFirst, if_neg h, updateFirst, if_neg h, ih]

theorem bookingPairOK_inactive_left {b c : Booking} (h : isActiveBooking b = false) :
    bookingPairOK b c = true := by
  simp [bookingPairOK, h]

theorem bookingPairOK_inactive_right {b c : Booking} (h : isActiveBooking c = false) :
    bookingPairOK b c = true := by
  simp [bookingPairOK, h]

theorem conflictFree_append {l : List Booking} {b : Booking}
    (h : conflictFree l = true) (hb : ∀ c ∈ l, bookingPairOK c b = true) :
    conflictFree (l ++ [b]) = true := by
  induction l with
  | nil => simp [conflictFree]
  | cons a t ih =>
    rw [List.cons_append, conflictFree, Bool.and_eq_true, List.all_append]
    rw [conflictFree, Bool.and_eq_true] at h
    refine ⟨?_, ih h.2 (fun c hc => hb c (List.mem_cons_of_mem a hc))⟩
    rw [Bool.and_eq_true]
    refine ⟨h.1, ?_⟩
    simp only [List.all_cons, List.all_nil, Bool.and_true]
    exact hb a (List.mem_cons_self a t)

theorem all_pairOK_updateFirst_cancel {a : Booking} {l : List Booking} {bid : Nat}
    (h : l.all (bookingPairOK a) = true) :
    (updateFirst (fun b => b.id == bid)
      (fun b => { b with bookingStatus := "cancelled" }) l).all (bookingPairOK a) = true := by
  rw [List.all_eq_true] at h ⊢
  intro c hc
  rcases mem_updateFirst hc with hc' | ⟨y, hy, hpy, rfl⟩
  · exact h c hc'
  · exact bookingPairOK_inactive_right (by rfl)

theorem conflictFree_cancelFirst {l : List Booking} {bid : Nat}
    (h : conflictFree l = true) :
    conflictFree (updateFirst (fun b => b.id == bid)
      (fun b => { b with bookingStatus := "cancelled" }) l) = true := by
  induction l with
  | nil => rfl
  | cons a t ih =>
    rw [conflictFree, Bool.and_eq_true] at h
    by_cases hpa : (a.id == bid) = true
    · rw [updateFirst, if_pos hpa, conflictFree, Bool.and_eq_true]
      refine ⟨?_, h.2⟩
      rw [List.all_eq_true]
      intro c hc
      exact bookingPairOK_inactive_left (by rfl)
    · rw [updateFirst, if_neg hpa, conflictFree, Bool.and_eq_true]
      exact ⟨all_pairOK_updateFirst_cancel h.1, ih h.2⟩

theorem create_booking_ok_inv {req : BookingCreateRequest} {nid now : Nat}
    {s s' : DBState} (h : create_booking req nid now s = .ok s') :
    ∃ trip, s.trips.find? (fun t => t.id == req.tripId) = some trip ∧
      req.seatNumbers.find? (fun seat => !(seatMapAvailable s.bookings trip seat)) = none ∧
      s'.bookings = s.bookings ++ [newBooking req nid now trip] := by
  unfold create_booking at h
  cases hfind : s.trips.find? (fun t => t.id == req.tripId) with
  | none => rw [hfind] at h; exact Except.noConfusion h
  | some trip =>
    rw [hfind] at h
    dsimp only at h
    by_cases hcap : trip.availableSeats < (req.seatsBooked : Int)
    · rw [if_pos hcap] at h
      exact Except.noConfusion h
    · rw [if_neg hcap] at h
      cases hseat : req.seatNumbers.find? (fun seat => !(seatMapAvailable s.bookings trip seat)) with
      | some seat =>
        rw [hseat] at h
        exact Except.noConfusion h
      | none =>
        rw [hseat] at h
        dsimp only at h
        obtain rfl : _ = s' := Except.ok.inj h
        exact ⟨trip, rfl, hseat, rfl⟩

theorem mem_occupiedSeats {bookings : List Booking} {tid : Nat} {c : Booking} {x : String}
    (hc : c ∈ bookings) (htrip : c.tripId = tid) (hact : isActiveBooking c = true)
    (hx : x ∈ c.seatNumbers) : x ∈ occupiedSeats bookings tid := by
  unfold occupiedSeats
  rw [List.mem_flatMap]
  refine ⟨c, ?_, hx⟩
  rw [List.mem_filter]
  exact ⟨hc, by simp [htrip, hact]⟩

/-! ## The claims -/

/-- Claim C1: the claim states that `create_booking` decrements
`available_seats` by `n` and increments `booked_seats` by `n` atomically,
keeping `available_seats + booked_seats = total_seats`.  Run on a trip in a
consistent state (10/10/0), the code's `create_booking` for 2 seats leaves
`booked_seats` at 0 while dropping `available_seats` to 8, breaking the
invariant that the Trip model itself declares as the `seat_count_consistency`
CheckConstraint. -/
theorem create_booking_breaks_seat_count_consistency :
    stateTen.trips.all tripSeatConsistent = true ∧
    create_booking reqTwoSeats 1 0 stateTen = .ok stateTenAfter ∧
    stateTenAfter.trips.map Trip.availableSeats = [8] ∧
    stateTenAfter.trips.map Trip.bookedSeats = [0] ∧
    stateTenAfter.trips.all tripSeatConsistent = false := by
  refine ⟨by decide, by decide, by decide, by decide, by decide⟩

/-- Claim C2 (counterexample): a failure callback delivered for a payment
already in the terminal status `completed` is not a benign no-op: the code
overwrites the status to `failed` and reports normal processing. -/
theorem callback_overwrites_terminal_status_cex :
    stateCompleted.payments.map PaymentTransaction.status = ["completed"] ∧
    isTerminalStatus "completed" = true ∧
    (handle_stk_callback cbFailure 300 stateCompleted).state.payments.map
      PaymentTransaction.status = ["failed"] ∧
    (handle_stk_callback cbFailure 300 stateCompleted).result = .ok ("failed") := by
  refine ⟨by decide, by decide, by decide, rfl⟩

/-- Claim C2 (amended): `query_payment_status` and the scheduled timeout
check never move a payment out of a terminal (indeed, any
non-`pending`/`processing`) status, but `handle_stk_callback` applies its
transition unconditionally: a callback with a failure code sets the matched
payment to `failed` whatever its current status, terminal ones included. -/
theorem terminal_status_preserved_except_callback :
    (∀ (pid : Nat) (gw : Option String) (now : Nat) (s : DBState) (p : PaymentTransaction),
      s.payments.find? (fun q => q.id == pid) = some p →
      isTerminalStatus p.status = true →
      query_payment_status pid gw now s = .ok s) ∧
    (∀ (pid t : Nat) (s : DBState), schedule_payment_timeout_check pid t s = s) ∧
    (∀ (cb : StkCallback) (cid : String) (now : Nat) (s : DBState) (p : PaymentTransaction),
      cb.checkoutRequestId = some cid →
      cb.resultCode ≠ 0 →
      s.payments.find? (fun q => q.checkoutRequestId == some cid) = some p →
      (handle_stk_callback cb now s).state.payments.find?
          (fun q => q.checkoutRequestId == some cid) =
        some { p with status := "failed", failureReason := some cb.resultDesc }) := by
  refine ⟨?_, ?_, ?_⟩
  · intro pid gw now s p hfind hterm
    have hg1 : (p.status == "pending") = false := by
      rw [beq_eq_false_iff_ne]
      intro hps
      rw [hps] at hterm
      exact absurd hterm (by decide)
    have hg2 : (p.status == "processing") = false := by
      rw [beq_eq_false_iff_ne]
      intro hps
      rw [hps] at hterm
      exact absurd hterm (by decide)
    have hguard : (p.status == "pending" || p.status == "processing") = false := by
      rw [hg1, hg2]
      rfl
    unfold query_payment_status
    rw [hfind]
    dsimp only
    rw [hguard]
    simp
  · intro pid t s
    rfl
  · intro cb cid now s p hcid hrc hfind
    have hne : (cb.resultCode == 0) = false := by
      simpa using hrc
    have hp := List.find?_some hfind
    unfold handle_stk_callback
    rw [hcid]
    dsimp only
    rw [hfind]
    dsimp only
    rw [hne]
    exact find?_updateFirst_self hfind hp

/-- Claim C2 (witness): the general statement applied to the concrete
completed payment of `stateCompleted`. -/
theorem terminal_status_preserved_except_callback_w :
    query_payment_status 1 none 300 stateCompleted = .ok stateCompleted ∧
    schedule_payment_timeout_check 1 120 stateCompleted = stateCompleted ∧
    (handle_stk_callback cbFailure 300 stateCompleted).state.payments.find?
        (fun q => q.checkoutRequestId == some ("CR1")) =
      some { paymentCompleted with
             status := "failed"
             failureReason := some ("Request cancelled by user") } :=
  ⟨terminal_status_preserved_except_callback.1 1 none 300 stateCompleted paymentCompleted
      (by decide) (by decide),
   terminal_status_preserved_except_callback.2.1 1 120 stateCompleted,
   terminal_status_preserved_except_callback.2.2 cbFailure "CR1" 300 stateCompleted
      paymentCompleted (by decide) (by decide) (by decide)⟩

/-- Claim C3 (counterexample): delivering the same success payload twice
does not leave the state identical to one delivery, and the second delivery
is not detected: it is processed in full (result `ok "completed"`) and a
second webhook-log row appears. -/
theorem duplicate_callback_changes_state_cex :
    (handle_stk_callback cbSuccess 100
        (handle_stk_callback cbSuccess 100 stateProcessing).state).state ≠
      (handle_stk_callback cbSuccess 100 stateProcessing).state ∧
    (handle_stk_callback cbSuccess 100 stateProcessing).state.webhookLogs.length = 1 ∧
    (handle_stk_callback cbSuccess 100
        (handle_stk_callback cbSuccess 100 stateProcessing).state).state.webhookLogs.length = 2 ∧
    (handle_stk_callback cbSuccess 100
        (handle_stk_callback cbSuccess 100 stateProcessing).state).result = .ok ("completed") := by
  refine ⟨by decide, by decide, by decide, rfl⟩

/-- Claim C3 (amended): there is no idempotency check, so a redelivered
success callback is reprocessed in full: the payment and booking rows end up
with the same values (the updates are idempotent assignments, delivered at
the same clock reading), the booking-confirmation effect is applied again,
and the only net difference is one more webhook-log row per delivery. -/
theorem duplicate_callback_reprocessed :
    ∀ (cb : StkCallback) (cid : String) (now : Nat) (s : DBState) (p : PaymentTransaction),
      cb.checkoutRequestId = some cid →
      cb.resultCode = 0 →
      s.payments.find? (fun q => q.checkoutRequestId == some cid) = some p →
      (handle_stk_callback cb now (handle_stk_callback cb now s).state).state =
        { (handle_stk_callback cb now s).state with
          webhookLogs := (handle_stk_callback cb now s).state.webhookLogs ++
            [mkWebhookLog cb cid now] } ∧
      (handle_stk_callback cb now (handle_stk_callback cb now s).state).result =
        (handle_stk_callback cb now s).result := by
  intro cb cid now s p hcid hrc hfind
  have hrc0 : (cb.resultCode == 0) = true := by simpa using hrc
  have hp := List.find?_some hfind
  simp only [handle_stk_callback, hcid, hfind, hrc0, eq_self_iff_true, if_true]
  rw [find?_updateFirst_self hfind hp]
  dsimp only
  refine ⟨?_, rfl⟩
  congr 1
  · refine updateFirst_idem ?_ ?_ s.bookings <;> intro x <;> rfl
  · refine updateFirst_idem ?_ ?_ s.payments <;> intro x <;> rfl

/-- Claim C3 (witness): the general statement applied to the concrete
processing payment of `stateProcessing` and the success callback. -/
theorem duplicate_callback_reprocessed_w :
    (handle_stk_callback cbSuccess 100
        (handle_stk_callback cbSuccess 100 stateProcessing).state).state =
      { (handle_stk_callback cbSuccess 100 stateProcessing).state with
        webhookLogs := (handle_stk_callback cbSuccess 100 stateProcessing).state.webhookLogs ++
          [mkWebhookLog cbSuccess "CR1" 100] } ∧
    (handle_stk_callback cbSuccess 100
        (handle_stk_callback cbSuccess 100 stateProcessing).state).result =
      (handle_stk_callback cbSuccess 100 stateProcessing).result :=
  duplicate_callback_reprocessed cbSuccess "CR1" 100 stateProcessing paymentProcessing
    (by decide) (by decide) (by decide)

/-- Claim C4 (counterexample): the disjointness invariant fails on a
reachable trace.  Book seat "1" (booking 1), initiate its payment, cancel
booking 1, rebook seat "1" as booking 2, then let the late success callback
arrive: it sets booking 1 back to `CONFIRMED` unconditionally, leaving two
active bookings that share seat "1". -/
theorem late_callback_breaks_seat_disjointness_cex :
    conflictFree stateOne.bookings = true ∧
    create_booking reqSeatOne 1 0 stateOne = .ok traceS1 ∧
    initiate_payment 1 "254700000001" 50000 "PAY-REF1" 1 10
      (.accepted "CR1" "MR1") traceS1 = (.ok (), traceS2) ∧
    cancel_booking 1 traceS2 = .ok traceS3 ∧
    create_booking reqSeatOne 2 20 traceS3 = .ok traceS4 ∧
    conflictFree traceS4.bookings = true ∧
    (handle_stk_callback cbSuccess 30 traceS4).state = traceS5 ∧
    conflictFree traceS5.bookings = false := by
  refine ⟨by decide, by decide, by decide, by decide, by decide, by decide, by decide, by decide⟩

/-- Claim C4 (amended): `create_booking` itself enforces disjointness — it
recomputes the occupied-seat set from the pending/confirmed bookings of the
trip, rejects when a requested seat is occupied (creating nothing), and its
successes preserve pairwise disjointness — and `cancel_booking` preserves it
too; the invariant only breaks through the payment callback, which confirms
a booking regardless of its current status. -/
theorem create_and_cancel_preserve_seat_disjointness :
    (∀ (req : BookingCreateRequest) (nid now : Nat) (s s' : DBState),
      conflictFree s.bookings = true →
      create_booking req nid now s = .ok s' →
      conflictFree s'.bookings = true) ∧
    (∀ (req : BookingCreateRequest) (nid now : Nat) (s : DBState) (trip : Trip) (seat : String),
      s.trips.find? (fun t => t.id == req.tripId) = some trip →
      seat ∈ req.seatNumbers →
      (occupiedSeats s.bookings trip.id).contains seat = true →
      ∃ msg, create_booking req nid now s = .error msg) ∧
    (∀ (bid : Nat) (s s' : DBState),
      conflictFree s.bookings = true →
      cancel_booking bid s = .ok s' →
      conflictFree s'.bookings = true) := by
  refine ⟨?_, ?_, ?_⟩
  · intro req nid now s s' hcf hok
    obtain ⟨trip, hfind, hseats, hb⟩ := create_booking_ok_inv hok
    rw [hb]
    refine conflictFree_append hcf ?_
    intro c hc
    cases hpk : bookingPairOK c (newBooking req nid now trip) with
    | true => rfl
    | false =>
      exfalso
      simp only [bookingPairOK, Bool.not_eq_false', Bool.and_eq_true] at hpk
      obtain ⟨⟨⟨hac, hanb⟩, htr⟩, hov⟩ := hpk
      rw [seatsOverlap, List.any_eq_true] at hov
      obtain ⟨x, hxc, hxnb⟩ := hov
      have hxreq : x ∈ req.seatNumbers := by simpa [newBooking] using hxnb
      have hx_avail := List.find?_eq_none.mp hseats x hxreq
      have havail : seatMapAvailable s.bookings trip x = true := by
        simpa using hx_avail
      have hnotocc : x ∉ occupiedSeats s.bookings trip.id := by
        rw [seatMapAvailable, Bool.and_eq_true] at havail
        simpa using havail.2
      have htripc : c.tripId = trip.id := by
        have h1 := List.find?_some hfind
        have h2 : trip.id = req.tripId := by simpa using h1
        have h3 : c.tripId = req.tripId := by simpa [newBooking] using htr
        rw [h3, h2]
      exact hnotocc (mem_occupiedSeats hc htripc hac hxc)
  · intro req nid now s trip seat hfind hseat hocc
    unfold create_booking
    rw [hfind]
    dsimp only
    by_cases hcap : trip.availableSeats < (req.seatsBooked : Int)
    · rw [if_pos hcap]
      exact ⟨_, rfl⟩
    · rw [if_neg hcap]
      have hsome : (req.seatNumbers.find?
          (fun st => !(seatMapAvailable s.bookings trip st))).isSome := by
        rw [List.find?_isSome]
        refine ⟨seat, hseat, ?_⟩
        simp only [seatMapAvailable]
        simp
        exact Or.inr (by simpa using hocc)
      obtain ⟨bad, hbad⟩ := Option.isSome_iff_exists.mp hsome
      rw [hbad]
      exact ⟨_, rfl⟩
  · intro bid s s' hcf hok
    unfold cancel_booking cancel_booking_inner at hok
    cases hfindb : s.bookings.find? (fun x => x.id == bid) with
    | none => rw [hfindb] at hok; exact Except.noConfusion hok
    | some b =>
      rw [hfindb] at hok
      dsimp only at hok
      by_cases hst : (b.bookingStatus == "cancelled" || b.bookingStatus == "completed") = true
      · rw [if_pos hst] at hok
        exact Except.noConfusion hok
      · rw [if_neg hst] at hok
        dsimp only at hok
        obtain rfl : _ = s' := Except.ok.inj hok
        exact conflictFree_cancelFirst hcf

/-- Claim C4 (witness): the general statement applied to concrete runs —
a fresh creation, a rejected conflicting creation, and a cancellation. -/
theorem create_and_cancel_preserve_seat_disjointness_w :
    conflictFree stateTenAfter.bookings = true ∧
    (∃ msg, create_booking reqSeatOne 2 20 traceS1 = .error msg) ∧
    conflictFree traceS3.bookings = true :=
  ⟨create_and_cancel_preserve_seat_disjointness.1 reqTwoSeats 1 0 stateTen stateTenAfter
      (by decide) (by decide),
   create_and_cancel_preserve_seat_disjointness.2.1 reqSeatOne 2 20 traceS1
      ({ tripOne with availableSeats := 0 }) "1" (by decide) (by decide) (by decide),
   create_and_cancel_preserve_seat_disjointness.2.2 1 traceS2 traceS3
      (by decide) (by decide)⟩

/-- Claim C5: the scheduled timeout check in the code performs no state
change at all (the source sleeps, then only logs "implement with task
queue"), so a payment still `processing` after `expires_at` is never moved
to `expired`; a second initiate for the booking nevertheless succeeds,
because the in-progress check only counts payments whose `expires_at` is in
the future. -/
theorem timeout_check_is_noop_but_reinitiate_succeeds :
    schedule_payment_timeout_check 1 120 stateProcessing = stateProcessing ∧
    (schedule_payment_timeout_check 1 120 stateProcessing).payments.map
      PaymentTransaction.status = ["processing"] ∧
    validate_payment_request 1 50000 200 stateProcessing = .ok bookingPending ∧
    (initiate_payment 1 "0700000001" 50000 "PAY-REF2" 2 200
      (.accepted "CR2" "MR2") stateProcessing).1 = .ok () ∧
    (initiate_payment 1 "0700000001" 50000 "PAY-REF2" 2 200
      (.accepted "CR2" "MR2") stateProcessing).2 =
      { stateProcessing with payments := stateProcessing.payments ++
        [⟨2, 1, some "CR2", some "MR2", "254700000001", 50000, none, none,
          "processing", none, 320⟩] } := by
  refine ⟨rfl, by decide, by decide, rfl, by decide⟩

/-- Claim C6 (counterexample): a refund of 50.00 against a completed payment
of 1000.00 — below the 1000.00 threshold — is created with status
`pending`, not `processing` as the claim states. -/
theorem small_refund_stays_pending_cex :
    initiate_refund 1 5000 true 1 stateRefund =
      .ok { stateRefund with refunds := [refundSmall] } ∧
    refundSmall.status = "pending" ∧
    refundSmall.requiresApproval = false := by
  refine ⟨by decide, rfl, rfl⟩

/-- Claim C6 (amended): `initiate_refund` sets `requires_approval` exactly
when the amount exceeds the 1000.00 threshold, but every created refund
starts in status `pending` with no `approved_by`, whether or not the
threshold is exceeded; it never proceeds straight to `processing`. -/
theorem initiate_refund_sets_approval_flag_and_pending :
    ∀ (pid amt : Nat) (fl : Bool) (nid : Nat) (s s' : DBState),
      initiate_refund pid amt fl nid s = .ok s' →
      ∃ r, s'.refunds = s.refunds ++ [r] ∧
        r.requiresApproval = decide (amt > refund_approval_threshold) ∧
        r.status = "pending" ∧ r.approvedBy = none := by
  intro pid amt fl nid s s' h
  unfold initiate_refund at h
  cases hfind : s.payments.find? (fun p => p.id == pid) with
  | none => rw [hfind] at h; exact Except.noConfusion h
  | some payment =>
    rw [hfind] at h
    dsimp only at h
    by_cases hfl : (!fl) = true
    · rw [if_pos hfl] at h
      exact Except.noConfusion h
    · rw [if_neg hfl] at h
      by_cases hamt : amt > payment.amount
      · rw [if_pos hamt] at h
        exact Except.noConfusion h
      · rw [if_neg hamt] at h
        by_cases hst : (payment.status != "completed") = true
        · rw [if_pos hst] at h
          exact Except.noConfusion h
        · rw [if_neg hst] at h
          obtain rfl : _ = s' := Except.ok.inj h
          exact ⟨_, rfl, rfl, rfl, rfl⟩

/-- Claim C6 (witness): the general statement applied to the concrete
below-threshold refund. -/
theorem initiate_refund_sets_approval_flag_and_pending_w :
    ∃ r, ({ stateRefund with refunds := [refundSmall] } : DBState).refunds =
        stateRefund.refunds ++ [r] ∧
      r.requiresApproval = decide (5000 > refund_approval_threshold) ∧
      r.status = "pending" ∧ r.approvedBy = none :=
  initiate_refund_sets_approval_flag_and_pending 1 5000 true 1 stateRefund
    { stateRefund with refunds := [refundSmall] } (by decide)

/-- Claim C7 (counterexample): cancelling an already-cancelled booking is
not a no-op success — the endpoint rejects it (the 400 raised in the `try`
block is converted by the blanket `except` clause into a 500). -/
theorem cancel_cancelled_booking_errors_cex :
    bookingCancelled.bookingStatus = "cancelled" ∧
    cancel_booking 1 stateCancelled = .error (500, "Internal server error") := by
  refine ⟨rfl, by decide⟩

/-- Claim C7 (amended): `cancel_booking` is not idempotent: a booking
already `cancelled` or `completed` is rejected with an error and nothing
changes, while a first cancellation marks the booking `cancelled` and
reverses both trip seat counters by `seats_booked`. -/
theorem cancel_booking_behavior :
    ∀ (bid : Nat) (s : DBState) (b : Booking),
      s.bookings.find? (fun x => x.id == bid) = some b →
      ((b.bookingStatus == "cancelled" || b.bookingStatus == "completed") = true →
        cancel_booking bid s = .error (500, "Internal server error")) ∧
      ((b.bookingStatus == "cancelled" || b.bookingStatus == "completed") = false →
        cancel_booking bid s = .ok { s with
          bookings := updateFirst (fun x => x.id == bid)
            (fun x => { x with bookingStatus := "cancelled" }) s.bookings
          trips := updateFirst (fun t => t.id == b.tripId)
            (fun t => { t with
                        availableSeats := t.availableSeats + (b.seatsBooked : Int)
                        bookedSeats := t.bookedSeats - (b.seatsBooked : Int) }) s.trips }) := by
  intro bid s b hfind
  constructor <;> intro hst <;>
    simp only [cancel_booking, cancel_booking_inner, hfind, hst] <;> simp

/-- Claim C7 (witness): the general statement applied to the concrete
cancelled booking and to a first cancellation of a pending booking. -/
theorem cancel_booking_behavior_w :
    cancel_booking 1 stateCancelled = .error (500, "Internal server error") ∧
    cancel_booking 1 stateProcessing = .ok { stateProcessing with
      bookings := updateFirst (fun x => x.id == 1)
        (fun x => { x with bookingStatus := "cancelled" }) stateProcessing.bookings
      trips := updateFirst (fun t => t.id == bookingPending.tripId)
        (fun t => { t with
                    availableSeats := t.availableSeats + (bookingPending.seatsBooked : Int)
                    bookedSeats := t.bookedSeats - (bookingPending.seatsBooked : Int) })
        stateProcessing.trips } :=
  ⟨(cancel_booking_behavior 1 stateCancelled bookingCancelled (by decide)).1 (by decide),
   (cancel_booking_behavior 1 stateProcessing bookingPending (by decide)).2 (by decide)⟩

/-- Claim C8: `initiate_refund` creates a refund row only when the payment
exists, is `completed`, and the amount does not exceed the payment's amount;
each violated precondition yields its error (`Payment not found`, `Refund
amount cannot exceed payment amount` — checked before the status —, `Can
only refund completed payments`), with no refund row created. -/
theorem initiate_refund_preconditions :
    (∀ (pid amt : Nat) (fl : Bool) (nid : Nat) (s : DBState),
      s.payments.find? (fun p => p.id == pid) = none →
      initiate_refund pid amt fl nid s = .error ("Payment not found")) ∧
    (∀ (pid amt : Nat) (nid : Nat) (s : DBState) (p : PaymentTransaction),
      s.payments.find? (fun q => q.id == pid) = some p →
      amt > p.amount →
      initiate_refund pid amt true nid s =
        .error ("Refund amount cannot exceed payment amount")) ∧
    (∀ (pid amt : Nat) (nid : Nat) (s : DBState) (p : PaymentTransaction),
      s.payments.find? (fun q => q.id == pid) = some p →
      ¬(amt > p.amount) → p.status ≠ "completed" →
      initiate_refund pid amt true nid s =
        .error ("Can only refund completed payments")) ∧
    (∀ (pid amt : Nat) (fl : Bool) (nid : Nat) (s s' : DBState),
      initiate_refund pid amt fl nid s = .ok s' →
      ∃ p, s.payments.find? (fun q => q.id == pid) = some p ∧
        p.status = "completed" ∧ amt ≤ p.amount ∧
        s'.refunds.length = s.refunds.length + 1) := by
  refine ⟨?_, ?_, ?_, ?_⟩
  · intro pid amt fl nid s hfind
    simp only [initiate_refund, hfind]
  · intro pid amt nid s p hfind hgt
    simp only [initiate_refund, hfind]
    simp [hgt]
  · intro pid amt nid s p hfind hle hst
    simp only [initiate_refund, hfind]
    simp [hle, hst]
  · intro pid amt fl nid s s' h
    unfold initiate_refund at h
    cases hfind : s.payments.find? (fun p => p.id == pid) with
    | none => rw [hfind] at h; exact Except.noConfusion h
    | some payment =>
      rw [hfind] at h
      dsimp only at h
      by_cases hfl : (!fl) = true
      · rw [if_pos hfl] at h
        exact Except.noConfusion h
      · rw [if_neg hfl] at h
        by_cases hamt : amt > payment.amount
        · rw [if_pos hamt] at h
          exact Except.noConfusion h
        · rw [if_neg hamt] at h
          by_cases hst : (payment.status != "completed") = true
          · rw [if_pos hst] at h
            exact Except.noConfusion h
          · rw [if_neg hst] at h
            obtain rfl : _ = s' := Except.ok.inj h
            refine ⟨payment, rfl, ?_, by omega, by simp⟩
            simpa [bne_iff_ne] using hst

/-- Claim C8 (witness): the general statement applied to a missing payment,
an over-large amount, a non-completed payment, and a valid refund. -/
theorem initiate_refund_preconditions_w :
    initiate_refund 1 5000 true 1 stateEmpty = .error ("Payment not found") ∧
    initiate_refund 1 200000 true 1 stateRefund =
      .error ("Refund amount cannot exceed payment amount") ∧
    initiate_refund 1 5000 true 1 statePaymentProcessing =
      .error ("Can only refund completed payments") ∧
    (∃ p, stateRefund.payments.find? (fun q => q.id == 1) = some p ∧
      p.status = "completed" ∧ 5000 ≤ p.amount ∧
      ({ stateRefund with refunds := [refundSmall] } : DBState).refunds.length =
        stateRefund.refunds.length + 1) :=
  ⟨initiate_refund_preconditions.1 1 5000 true 1 stateEmpty (by decide),
   initiate_refund_preconditions.2.1 1 200000 1 stateRefund paymentLarge
      (by decide) (by decide),
   initiate_refund_preconditions.2.2.1 1 5000 1 statePaymentProcessing paymentProcessing
      (by decide) (by decide) (by decide),
   initiate_refund_preconditions.2.2.2 1 5000 true 1 stateRefund
      { stateRefund with refunds := [refundSmall] } (by decide)⟩

/-- Claim C9: the callback endpoint returns HTTP 200 with body
`{ResultCode: 0, ResultDesc: "Success"}` for every payload, on the normal
path and on the exception path alike; the actual processing runs as a
background task whose failures are only logged. -/
theorem mpesa_callback_always_success_response :
    ∀ (cb : StkCallback) (handlerRaises : Bool),
      mpesa_callback cb handlerRaises =
        { httpStatus := 200, body := { ResultCode := 0, ResultDesc := "Success" } } := by
  intro cb r
  cases r <;> rfl

/-- Claim C10: the STK push request's `Amount` field is `int(amount)` — the
truncation of the requested decimal amount (here: cents divided by 100) —
while the stored `PaymentTransaction.amount` is the untruncated amount;
whenever the fractional part is non-zero the amount requested from the
gateway is strictly less than the amount recorded. -/
theorem stk_push_truncates_amount :
    ∀ (phone : String) (amountCents bookingId : Nat) (payRef : String)
      (nid now : Nat) (cid mid : String) (s : DBState),
      (initiate_stk_push phone amountCents bookingId payRef nid now
        (.accepted cid mid) s).request.amount = amountCents / 100 ∧
      (initiate_stk_push phone amountCents bookingId payRef nid now
        (.accepted cid mid) s).state.payments.map PaymentTransaction.amount =
        s.payments.map PaymentTransaction.amount ++ [amountCents] ∧
      (amountCents % 100 ≠ 0 →
        (initiate_stk_push phone amountCents bookingId payRef nid now
          (.accepted cid mid) s).request.amount * 100 < amountCents) := by
  intro phone amountCents bookingId payRef nid now cid mid s
  refine ⟨rfl, by simp [initiate_stk_push], ?_⟩
  intro hmod
  have hreq : (initiate_stk_push phone amountCents bookingId payRef nid now
      (.accepted cid mid) s).request.amount = amountCents / 100 := rfl
  rw [hreq]
  omega

/-- Claim C10 (witness): 123.45 (12345 cents) is sent to the gateway as 123,
strictly less than the recorded amount. -/
theorem stk_push_truncates_amount_w :
    (initiate_stk_push "0700000001" 12345 1 "PAY-X" 1 0
      (.accepted "CR9" "MR9") stateEmpty).request.amount * 100 < 12345 :=
  (stk_push_truncates_amount "0700000001" 12345 1 "PAY-X" 1 0 "CR9" "MR9"
    stateEmpty).2.2 (by decide)

end Rembo
